import Mathlib

/-!
Verification of the spectral (FFT) measurement engine of
precision-converters-library, shallowly embedded from src/fft/adi_fft.c and
src/fft/adi_fft.h.  Machine integers are modelled as Nat/Int (the values
arising in the engine are far below any overflow boundary except where noted),
IEEE floating point as exact reals, C arrays as total functions on Int
(matching flat memory reads at possibly negative offsets), and fallible
functions return Except Int _ carrying the negated errno value (-EINVAL = -22).
-/

namespace AdiFft

/-- ADI_FFT_DC_BINS from adi_fft.c: DC bins ignored for noise and other
calculations. -/
def ADI_FFT_DC_BINS : ℕ := 10

/-- ADI_FFT_FUND_BINS from adi_fft.c: power spread of the fundamental, 10 bins
either side. -/
def ADI_FFT_FUND_BINS : ℕ := 10

/-- ADI_FFT_HARM_BINS from adi_fft.c: power spread of a harmonic, 3 bins
either side. -/
def ADI_FFT_HARM_BINS : ℕ := 3

/-- ADI_FFT_NUM_OF_TERMS from adi_fft_windowing.h. -/
def ADI_FFT_NUM_OF_TERMS : ℕ := 7

/-- EINVAL errno value; the engine returns -EINVAL. -/
def EINVAL : ℤ := 22

/-- adi_fft_windowing_type from adi_fft.h. -/
inductive WindowingType where
  | BLACKMAN_HARRIS_7TERM
  | RECTANGULAR
deriving DecidableEq

/-- Modelled from the spec: the Blackman-Harris coefficient data
(adi_fft_7_term_bh_coefs, the precomputed per-sample table
adi_fft_7_term_bh_4096 and its sum adi_fft_7_term_bh_4096_sum) lives in a
windowing source file that is not under src/ (only its extern declarations in
adi_fft_windowing.h are); the spec describes it as a precomputed per-sample
coefficient table with a precomputed constant sum.  The concrete numeric
values are irrelevant to every claim, so they are carried as an explicit
environment. -/
structure WindowingEnv where
  bh_coefs : ℕ → ℝ
  bh_4096 : ℕ → ℝ
  bh_4096_sum : ℝ

/-- struct adi_fft_init_params from adi_fft.h.  The conversion hooks take the
raw code; the channel-index byte argument of the C hooks is dropped since the
engine always passes 0. -/
structure InitParams where
  vref : ℝ
  sample_rate : ℕ
  samples_count : ℕ
  input_data_full_scale : ℤ
  input_data_zero_scale : ℤ
  convert_data_to_volt_without_vref : ℤ → ℝ
  convert_data_to_volt_wrt_vref : ℤ → ℝ
  convert_code_to_straight_binary : ℤ → ℤ

/-- struct adi_fft_processing from adi_fft.h. -/
structure Processing where
  vref : ℝ
  sample_rate : ℕ
  input_data_full_scale : ℤ
  input_data_zero_scale : ℤ
  cnv_data_to_volt_without_vref : ℤ → ℝ
  cnv_data_to_volt_wrt_vref : ℤ → ℝ
  cnv_code_to_straight_binary : ℤ → ℤ
  fft_length : ℕ
  bin_width : ℝ
  input_data : ℤ → ℤ
  fft_magnitude : ℤ → ℝ
  fft_magnitude_corrected : ℤ → ℝ
  fft_dB : ℤ → ℝ
  fft_input : ℤ → ℝ
  noise_bins : ℤ → ℝ
  window : WindowingType
  fft_done : Bool

/-- struct adi_fft_measurements from adi_fft.h. -/
structure Measurements where
  harmonics_power : ℕ → ℝ
  harmonics_mag_dbfs : ℕ → ℝ
  harmonics_freq : ℕ → ℕ
  fundamental : ℝ
  pk_spurious_noise : ℝ
  pk_spurious_freq : ℕ
  THD : ℝ
  SNR : ℝ
  DR : ℝ
  SINAD : ℝ
  SFDR_dbc : ℝ
  SFDR_dbfs : ℝ
  ENOB : ℝ
  RMS_noise : ℝ
  average_bin_noise : ℝ
  max_amplitude : ℝ
  min_amplitude : ℝ
  pk_pk_amplitude : ℝ
  DC : ℝ
  transition_noise : ℝ
  max_amplitude_LSB : ℤ
  min_amplitude_LSB : ℤ
  pk_pk_amplitude_LSB : ℤ
  DC_LSB : ℤ
  transition_noise_LSB : ℤ

/-- Base-10 logarithm, the log10/log10f of math.h over exact reals. -/
noncomputable def log10 (x : ℝ) : ℝ := Real.logb 10 x

/-- adi_fft_dbfs_to_volts from adi_fft.c. -/
noncomputable def adi_fft_dbfs_to_volts (vref value : ℝ) : ℝ :=
  2 * vref * (10 : ℝ) ^ (value / 20)

/-- adi_fft_update_params from adi_fft.c.  Null pointers are modelled by
Option; the underlying transform re-initialization arm_cfft_init_f32 is an
external CMSIS primitive, modelled as a status function of the new FFT length
whose result the C function returns.  On success the pair holds the updated
processing state and that status. -/
def adi_fft_update_params (cfft_init : ℕ → ℤ) (param : Option InitParams)
    (fft_proc : Option Processing) : Except ℤ (Processing × ℤ) :=
  match param, fft_proc with
  | some param, some fp =>
      Except.ok
        ({ fp with
            fft_length := param.samples_count / 2
            sample_rate := param.sample_rate
            vref := param.vref },
          cfft_init (param.samples_count / 2))
  | _, _ => Except.error (-EINVAL)

/-- Expected (folded) harmonic bin position computed by adi_fft_calculate_thd
(adi_fft.c lines 293-310) for fundamental bin fund_freq, harmonic order
`order`, and first Nyquist zone boundary L = fft_length.  The C computes it in
int arithmetic (the int8_t nyquist_zone does not truncate for any value the
engine produces, since fund_freq < fft_length and order is at most 6). -/
def harmonicPosition (fund_freq order L : ℕ) : ℕ :=
  let u := fund_freq * order
  if u < L then u
  else
    let nyquist_zone := 1 + u / L
    if nyquist_zone % 2 = 1 then L - (L * nyquist_zone - u)
    else L * nyquist_zone - u

/-- The window term computed for sample index k = cnt/2 by adi_fft_windowing
(adi_fft.c lines 174-193).  For the Blackman-Harris window the precalculated
table is used when fft_length is at most 2048, and otherwise each term is the
7-term cosine sum over sample_count = fft_length*2 - 1. -/
noncomputable def windowTerm (env : WindowingEnv) (window : WindowingType)
    (fft_length k : ℕ) : ℝ :=
  match window with
  | WindowingType.BLACKMAN_HARRIS_7TERM =>
      if fft_length ≤ 2048 then env.bh_4096 k
      else
        ∑ iter ∈ Finset.range ADI_FFT_NUM_OF_TERMS,
          env.bh_coefs iter *
            Real.cos (2 * Real.pi * iter * k / ((fft_length * 2 : ℕ) - 1))
  | WindowingType.RECTANGULAR => 1

/-- adi_fft_windowing from adi_fft.c.  The loop visits cnt = 0, 2, ...,
fft_length*2 - 2, i.e. sample index k = cnt/2 ranges over [0, fft_length);
each window term is added onto the caller-supplied accumulator *sum and
multiplies the real slot fft_input[2k] in place.  The C default case of the
window switch is unreachable for the two-valued window type, so the embedded
function is total. -/
noncomputable def adi_fft_windowing (env : WindowingEnv) (fft_proc : Processing)
    (sumIn : ℝ) : Processing × ℝ :=
  let sum := sumIn + ∑ k ∈ Finset.range fft_proc.fft_length,
    windowTerm env fft_proc.window fft_proc.fft_length k
  ({ fft_proc with
      fft_input := fun j =>
        if 0 ≤ j ∧ j < (fft_proc.fft_length * 2 : ℕ) ∧ j % 2 = 0 then
          fft_proc.fft_input j *
            windowTerm env fft_proc.window fft_proc.fft_length (j / 2).toNat
        else fft_proc.fft_input j },
    sum)

/-- The coefficient-sum selection of adi_fft_magnitude_to_db (adi_fft.c lines
222-238): the precomputed table-sum constant exactly when fft_length == 2048
and the window is Blackman-Harris; the number of samples for the rectangular
window; otherwise the accumulated sum, rejected with -EINVAL when it is
non-positive. -/
noncomputable def coeffSumSel (env : WindowingEnv) (fft_length : ℕ)
    (window : WindowingType) (sum : ℝ) : Except ℤ ℝ :=
  if fft_length = 2048 ∧ window = WindowingType.BLACKMAN_HARRIS_7TERM then
    Except.ok env.bh_4096_sum
  else if window = WindowingType.RECTANGULAR then
    Except.ok ((fft_length : ℝ) * 2)
  else if sum ≤ 0 then Except.error (-EINVAL)
  else Except.ok sum

/-- adi_fft_magnitude_to_db from adi_fft.c: select the coefficient sum, then
for every bin below fft_length store the corrected magnitude
magnitude*2/coeff_sum and its dB value 20*log10 of the correction.  On the
-EINVAL path nothing is written. -/
noncomputable def adi_fft_magnitude_to_db (env : WindowingEnv)
    (fft_proc : Processing) (sum : ℝ) : Except ℤ Processing :=
  match coeffSumSel env fft_proc.fft_length fft_proc.window sum with
  | Except.error e => Except.error e
  | Except.ok coeff_sum =>
      Except.ok { fft_proc with
        fft_magnitude_corrected := fun i =>
          if 0 ≤ i ∧ i < (fft_proc.fft_length : ℕ) then
            fft_proc.fft_magnitude i * 2 / coeff_sum
          else fft_proc.fft_magnitude_corrected i
        fft_dB := fun i =>
          if 0 ≤ i ∧ i < (fft_proc.fft_length : ℕ) then
            20 * log10 (fft_proc.fft_magnitude i * 2 / coeff_sum)
          else fft_proc.fft_dB i }

/-- The fundamental search of adi_fft_calculate_thd (adi_fft.c lines 278-284):
scan bins [ADI_FFT_DC_BINS, fft_length) for the maximum dB value, starting
from fund_mag = -200.0 and fund_freq = 0; the pair is (magnitude, bin). -/
noncomputable def fundSearch (fft_proc : Processing) : ℝ × ℕ :=
  (List.range' ADI_FFT_DC_BINS (fft_proc.fft_length - ADI_FFT_DC_BINS)).foldl
    (fun (acc : ℝ × ℕ) (i : ℕ) =>
      if fft_proc.fft_dB (i : ℤ) > acc.1 then (fft_proc.fft_dB (i : ℤ), i)
      else acc)
    (-200, 0)

/-- The local-peak search around an expected harmonic position
(adi_fft.c lines 313-318): scan offsets m in [-3, 3] of fft_dB, tracking
mag_helper (reset to -200.0 for each harmonic) and freq_helper.  In the C code
freq_helper is only assigned inside the comparison, so its previous value is
carried between harmonics; it is passed here as freqInit. -/
noncomputable def harmonicPeak (fft_proc : Processing) (pos : ℕ)
    (freqInit : ℕ) : ℝ × ℕ :=
  (List.range (2 * ADI_FFT_HARM_BINS + 1)).foldl
    (fun acc k =>
      if fft_proc.fft_dB ((pos : ℤ) + k - ADI_FFT_HARM_BINS) > acc.1 then
        (fft_proc.fft_dB ((pos : ℤ) + k - ADI_FFT_HARM_BINS),
          ((pos : ℤ) + k - ADI_FFT_HARM_BINS).toNat)
      else acc)
    (-200, freqInit)

/-- The harmonic measurement loop of adi_fft_calculate_thd (adi_fft.c lines
293-323): for i = 1..5 compute the expected folded position of harmonic i+1
from harmonics_freq[0], search +-3 bins around it, and record the peak bin and
magnitude; the freq_helper value is threaded through the iterations as in the
C code. -/
noncomputable def harmLoop (fft_proc : Processing) (fft_meas : Measurements) :
    Measurements :=
  ((List.range' 1 (ADI_FFT_NUM_OF_TERMS - 2)).foldl
    (fun (acc : Measurements × ℕ) i =>
      let pos := harmonicPosition (acc.1.harmonics_freq 0) (i + 1)
        fft_proc.fft_length
      let peak := harmonicPeak fft_proc pos acc.2
      ({ acc.1 with
          harmonics_freq := Function.update acc.1.harmonics_freq i peak.2
          harmonics_mag_dbfs :=
            Function.update acc.1.harmonics_mag_dbfs i peak.1 },
        peak.2))
    (fft_meas, 0)).1

/-- The power-leakage integration of adi_fft_calculate_thd (adi_fft.c lines
326-353): root-sum-square of corrected magnitudes over center-halfWidth ..
center+halfWidth, each divided by 2*sqrt 2, then scaled back by 2*sqrt 2.
The C loop index is a uint16_t starting at center - halfWidth; when
center < halfWidth that start wraps above the end bound, the body never runs
and the result is sqrt 0 * 2 * sqrt 2 = 0, reproduced by the guard here. -/
noncomputable def leakPower (fft_proc : Processing) (center halfWidth : ℕ) :
    ℝ :=
  if halfWidth ≤ center then
    Real.sqrt (∑ k ∈ Finset.range (2 * halfWidth + 1),
        (fft_proc.fft_magnitude_corrected ((center : ℤ) - halfWidth + k) /
          (2 * Real.sqrt 2)) ^ 2) *
      (2 * Real.sqrt 2)
  else 0

/-- adi_fft_calculate_thd from adi_fft.c: fundamental search, harmonic search
with Nyquist folding, power-leakage integration, and the THD formula
20*log10 of sqrt(power1^2 + ... + power5^2) / power0 over the leaked powers
just stored. -/
noncomputable def adi_fft_calculate_thd (fft_proc : Processing)
    (fft_meas : Measurements) : Measurements :=
  let fs := fundSearch fft_proc
  let m1 := { fft_meas with
    harmonics_freq := Function.update fft_meas.harmonics_freq 0 fs.2
    harmonics_mag_dbfs := Function.update fft_meas.harmonics_mag_dbfs 0 fs.1
    fundamental := adi_fft_dbfs_to_volts fft_proc.vref fs.1 }
  let m2 := harmLoop fft_proc m1
  let hp : ℕ → ℝ := fun j =>
    if j = 0 then leakPower fft_proc (m2.harmonics_freq 0) ADI_FFT_FUND_BINS
    else if j < ADI_FFT_NUM_OF_TERMS - 1 then
      leakPower fft_proc (m2.harmonics_freq j) ADI_FFT_HARM_BINS
    else m2.harmonics_power j
  { m2 with
    harmonics_power := hp
    THD := 20 * log10 (Real.sqrt
      (hp 1 ^ 2 + hp 2 ^ 2 + hp 3 ^ 2 + hp 4 ^ 2 + hp 5 ^ 2) / hp 0) }

/-- adi_fft_waveform_stat from adi_fft.c.  The sum of codes is an int64_t,
the mean is the C integer quotient sum / (fft_length*2) (int64 division
truncates toward zero, hence Int.tdiv) stored exactly in a double; min/max
start from -zero_scale resp. zero_scale and their positions are only written
when an update fires (the C leaves them indeterminate otherwise; the model
starts them at 0).  The deviation uses the exact real mean of the truncated
quotient, matching the double arithmetic structure.  Finally the truncated
mean is subtracted in place from every code of the capture block. -/
noncomputable def adi_fft_waveform_stat (fft_proc : Processing)
    (fft_meas : Measurements) : Processing × Measurements :=
  let N := fft_proc.fft_length * 2
  let sum : ℤ := ∑ cnt ∈ Finset.range N, fft_proc.input_data cnt
  let mean : ℤ := Int.tdiv sum N
  let offset_correction : ℤ := mean
  let maxAcc := (List.range N).foldl
    (fun (acc : ℤ × ℕ) (cnt : ℕ) =>
      if fft_proc.input_data cnt > acc.1 then (fft_proc.input_data cnt, cnt)
      else acc)
    (-fft_proc.input_data_zero_scale, 0)
  let minAcc := (List.range N).foldl
    (fun (acc : ℤ × ℕ) (cnt : ℕ) =>
      if fft_proc.input_data cnt < acc.1 then (fft_proc.input_data cnt, cnt)
      else acc)
    (fft_proc.input_data_zero_scale, 0)
  let deviation : ℝ := ∑ cnt ∈ Finset.range N,
    ((fft_proc.input_data cnt : ℝ) - (mean : ℝ)) ^ 2
  let dev : ℝ := Real.sqrt (deviation / (N : ℝ))
  let tn_lsb : ℤ := ⌊dev⌋
  let dc_lsb : ℤ := mean + fft_proc.input_data_zero_scale
  let maxAmp := fft_proc.cnv_data_to_volt_wrt_vref
    (fft_proc.input_data (maxAcc.2 : ℕ))
  let minAmp := fft_proc.cnv_data_to_volt_wrt_vref
    (fft_proc.input_data (minAcc.2 : ℕ))
  let maxLSB := fft_proc.input_data (maxAcc.2 : ℕ) +
    fft_proc.input_data_zero_scale
  let minLSB := fft_proc.input_data (minAcc.2 : ℕ) +
    fft_proc.input_data_zero_scale
  let tn := 2 * fft_proc.vref * (tn_lsb : ℝ) /
    (fft_proc.input_data_full_scale : ℝ)
  ({ fft_proc with
      input_data := fun i =>
        if 0 ≤ i ∧ i < (N : ℕ) then fft_proc.input_data i - offset_correction
        else fft_proc.input_data i },
    { fft_meas with
      DC_LSB := dc_lsb
      max_amplitude := maxAmp
      min_amplitude := minAmp
      pk_pk_amplitude := maxAmp - minAmp
      DC := 2 * fft_proc.vref * ((dc_lsb - fft_proc.input_data_zero_scale : ℤ) :
        ℝ) / (fft_proc.input_data_full_scale : ℝ)
      max_amplitude_LSB := maxLSB
      min_amplitude_LSB := minLSB
      pk_pk_amplitude_LSB := maxLSB - minLSB
      transition_noise_LSB := tn_lsb
      transition_noise := tn
      RMS_noise := tn })

/-- The bin-exclusion test of the noise loop in adi_fft_calculate_noise
(adi_fft.c lines 481-499): a bin is excluded when it lies within
ADI_FFT_FUND_BINS of harmonics_freq[0] or within ADI_FFT_HARM_BINS of one of
harmonics_freq[1..5].  The C comparisons happen in int arithmetic, so the
lower bounds may be negative; they are taken in ℤ. -/
def noiseExcluded (fft_meas : Measurements) (cnt : ℕ) : Bool :=
  ((cnt : ℤ) ≤ (fft_meas.harmonics_freq 0 : ℤ) + (ADI_FFT_FUND_BINS : ℤ) &&
    (cnt : ℤ) ≥ (fft_meas.harmonics_freq 0 : ℤ) - (ADI_FFT_FUND_BINS : ℤ)) ||
  ((cnt : ℤ) ≤ (fft_meas.harmonics_freq 1 : ℤ) + (ADI_FFT_HARM_BINS : ℤ) &&
    (cnt : ℤ) ≥ (fft_meas.harmonics_freq 1 : ℤ) - (ADI_FFT_HARM_BINS : ℤ)) ||
  ((cnt : ℤ) ≤ (fft_meas.harmonics_freq 2 : ℤ) + (ADI_FFT_HARM_BINS : ℤ) &&
    (cnt : ℤ) ≥ (fft_meas.harmonics_freq 2 : ℤ) - (ADI_FFT_HARM_BINS : ℤ)) ||
  ((cnt : ℤ) ≤ (fft_meas.harmonics_freq 3 : ℤ) + (ADI_FFT_HARM_BINS : ℤ) &&
    (cnt : ℤ) ≥ (fft_meas.harmonics_freq 3 : ℤ) - (ADI_FFT_HARM_BINS : ℤ)) ||
  ((cnt : ℤ) ≤ (fft_meas.harmonics_freq 4 : ℤ) + (ADI_FFT_HARM_BINS : ℤ) &&
    (cnt : ℤ) ≥ (fft_meas.harmonics_freq 4 : ℤ) - (ADI_FFT_HARM_BINS : ℤ)) ||
  ((cnt : ℤ) ≤ (fft_meas.harmonics_freq 5 : ℤ) + (ADI_FFT_HARM_BINS : ℤ) &&
    (cnt : ℤ) ≥ (fft_meas.harmonics_freq 5 : ℤ) - (ADI_FFT_HARM_BINS : ℤ))

/-- Accumulator of the main noise loop of adi_fft_calculate_noise: the
noise-bin buffer under construction, the running RSS and mean sums, and the
current peak spurious amplitude and its bin. -/
structure NoiseAcc where
  noise_bins : ℤ → ℝ
  RSS : ℝ
  mean : ℝ
  pk_spurious_noise : ℝ
  pk_spurious_freq : ℕ

/-- One iteration of the noise loop of adi_fft_calculate_noise (adi_fft.c
lines 479-515): excluded bins are zeroed in noise_bins; every other bin is
copied, added into RSS as (magnitude / (2*sqrt 2))^2 and into the mean sum,
and tracked for the peak spurious amplitude. -/
noncomputable def noiseLoopStep (fft_proc : Processing)
    (fft_meas : Measurements) (acc : NoiseAcc) (cnt : ℕ) : NoiseAcc :=
  if noiseExcluded fft_meas cnt then
    { acc with noise_bins := Function.update acc.noise_bins (cnt : ℤ) 0 }
  else
    { noise_bins := Function.update acc.noise_bins (cnt : ℤ)
        (fft_proc.fft_magnitude_corrected cnt)
      RSS := acc.RSS +
        (fft_proc.fft_magnitude_corrected cnt / (2 * Real.sqrt 2)) ^ 2
      mean := acc.mean + fft_proc.fft_magnitude_corrected cnt
      pk_spurious_noise :=
        if fft_proc.fft_magnitude_corrected cnt > acc.pk_spurious_noise then
          fft_proc.fft_magnitude_corrected cnt
        else acc.pk_spurious_noise
      pk_spurious_freq :=
        if fft_proc.fft_magnitude_corrected cnt > acc.pk_spurious_noise then
          cnt
        else acc.pk_spurious_freq }

/-- The LabView dynamic-range correction constant of adi_fft_calculate_noise. -/
noncomputable def LW_DR_correction_const : ℝ := 4.48

/-- adi_fft_calculate_noise from adi_fft.c: zero the DC guard band, run the
exclusion/RSS/mean/peak-spurious loop over bins [ADI_FFT_DC_BINS,
fft_length), then derive average bin noise, DR, SNR, SINAD, ENOB, the
converted peak spurious value 20*log10(1/amplitude), and SFDR from the
biggest-spur scan (adi_fft.c lines 517-564). -/
noncomputable def adi_fft_calculate_noise (fft_proc : Processing)
    (fft_meas : Measurements) : Processing × Measurements :=
  let bins0 : ℤ → ℝ := fun i =>
    if 0 ≤ i ∧ i < (ADI_FFT_DC_BINS : ℕ) then 0 else fft_proc.noise_bins i
  let acc := (List.range' ADI_FFT_DC_BINS
      (fft_proc.fft_length - ADI_FFT_DC_BINS)).foldl
    (noiseLoopStep fft_proc fft_meas)
    { noise_bins := bins0
      RSS := 0
      mean := 0
      pk_spurious_noise := -200
      pk_spurious_freq := 0 }
  let mean := acc.mean / (fft_proc.fft_length : ℝ)
  let RSS := Real.sqrt acc.RSS * 2 * Real.sqrt 2
  let pk_spurious_noise := 20 * log10 (1 / acc.pk_spurious_noise)
  let biggest_spur0 := ([1, 2, 3, 4, 5] : List ℕ).foldl
    (fun (bs : ℝ) (cnt : ℕ) =>
      if fft_meas.harmonics_mag_dbfs cnt > bs then
        fft_meas.harmonics_mag_dbfs cnt
      else bs)
    (-300)
  let biggest_spur :=
    if biggest_spur0 > pk_spurious_noise then pk_spurious_noise
    else biggest_spur0
  let SNR := 20 * log10 (fft_meas.harmonics_power 0 / RSS)
  let SINAD := -10 * log10 ((10 : ℝ) ^ (|SNR| * (-1) / 10) +
    (10 : ℝ) ^ (|fft_meas.THD| * (-1) / 10))
  ({ fft_proc with noise_bins := acc.noise_bins },
    { fft_meas with
      pk_spurious_noise := pk_spurious_noise
      pk_spurious_freq := acc.pk_spurious_freq
      SFDR_dbc := biggest_spur - fft_meas.harmonics_mag_dbfs 0
      SFDR_dbfs := biggest_spur
      average_bin_noise := 20 * log10 mean
      DR := 20 * log10 (1 / RSS) + LW_DR_correction_const
      SNR := SNR
      SINAD := SINAD
      ENOB := (SINAD - 1.67 + |fft_meas.harmonics_mag_dbfs 0|) / 6.02 })

/-- The entry mutations of adi_fft_perform (adi_fft.c lines 586-588): clear
fft_done and set the bin width sample_rate / (fft_length * 2). -/
noncomputable def performPrep (fft_proc : Processing) : Processing :=
  { fft_proc with
    fft_done := false
    bin_width := (fft_proc.sample_rate : ℝ) /
      ((fft_proc.fft_length : ℝ) * 2) }

/-- The input-loading loop of adi_fft_perform (adi_fft.c lines 596-606): for
each complex slot pair below fft_length*2, the even (real) slot receives the
DC-removed code converted to volts without respect to vref, and the odd
(imaginary) slot is zeroed. -/
noncomputable def performLoadInput (fft_proc : Processing) : Processing :=
  { fft_proc with
    fft_input := fun j =>
      if 0 ≤ j ∧ j < (fft_proc.fft_length * 2 : ℕ) then
        if j % 2 = 0 then
          fft_proc.cnv_data_to_volt_without_vref (fft_proc.input_data (j / 2))
        else 0
      else fft_proc.fft_input j }

/-- adi_fft_perform from adi_fft.c for non-null pointers: clear fft_done and
set bin_width, run waveform statistics, load and window the transform input,
run the external CMSIS transform and magnitude primitives (arm_cfft_f32 and
arm_cmplx_mag_f32, modelled as the function parameters cfftF and cmagF of the
buffer and the FFT length), then magnitude-to-dB, THD, and noise; on any inner
error the error code is returned with the state reached so far, otherwise
fft_done is set and 0 returned.  Result: (return value, processing state,
measurements). -/
noncomputable def adi_fft_perform (env : WindowingEnv)
    (cfftF : (ℤ → ℝ) → ℕ → ℤ → ℝ) (cmagF : (ℤ → ℝ) → ℕ → ℤ → ℝ)
    (fft_proc : Processing) (fft_meas : Measurements) :
    ℤ × Processing × Measurements :=
  let p0 := performPrep fft_proc
  let ws := adi_fft_waveform_stat p0 fft_meas
  let p2 := performLoadInput ws.1
  let wd := adi_fft_windowing env p2 0
  let p4 := { wd.1 with
    fft_magnitude := cmagF (cfftF wd.1.fft_input wd.1.fft_length)
      wd.1.fft_length }
  match adi_fft_magnitude_to_db env p4 wd.2 with
  | Except.error e => (e, p4, ws.2)
  | Except.ok p5 =>
      let m2 := adi_fft_calculate_thd p5 ws.2
      let nz := adi_fft_calculate_noise p5 m2
      (0, { nz.1 with fft_done := true }, nz.2)

/-!  Concrete states used by witnesses and counterexamples.  -/

/-- A windowing environment with all coefficient data zero; the claims under
test never depend on the table values. -/
noncomputable def env0 : WindowingEnv :=
  { bh_coefs := fun _ => 0
    bh_4096 := fun _ => 0
    bh_4096_sum := 0 }

/-- An all-zero measurements record. -/
noncomputable def m0 : Measurements :=
  { harmonics_power := fun _ => 0
    harmonics_mag_dbfs := fun _ => 0
    harmonics_freq := fun _ => 0
    fundamental := 0
    pk_spurious_noise := 0
    pk_spurious_freq := 0
    THD := 0
    SNR := 0
    DR := 0
    SINAD := 0
    SFDR_dbc := 0
    SFDR_dbfs := 0
    ENOB := 0
    RMS_noise := 0
    average_bin_noise := 0
    max_amplitude := 0
    min_amplitude := 0
    pk_pk_amplitude := 0
    DC := 0
    transition_noise := 0
    max_amplitude_LSB := 0
    min_amplitude_LSB := 0
    pk_pk_amplitude_LSB := 0
    DC_LSB := 0
    transition_noise_LSB := 0 }

/-- A concrete processing state: a 2-bin FFT over the 4-sample capture block
0, 1, 4, 9 (codes i*i). -/
noncomputable def p6 : Processing :=
  { vref := 0
    sample_rate := 0
    input_data_full_scale := 1
    input_data_zero_scale := 0
    cnv_data_to_volt_without_vref := fun _ => 0
    cnv_data_to_volt_wrt_vref := fun _ => 0
    cnv_code_to_straight_binary := fun c => c
    fft_length := 2
    bin_width := 0
    input_data := fun i => i * i
    fft_magnitude := fun _ => 0
    fft_magnitude_corrected := fun _ => 0
    fft_dB := fun _ => 0
    fft_input := fun _ => 0
    noise_bins := fun _ => 0
    window := WindowingType.BLACKMAN_HARRIS_7TERM
    fft_done := false }

/-- A concrete processing state with fft_length 4096, i.e. on the synthesized
(non-table) Blackman-Harris path. -/
noncomputable def p8 : Processing :=
  { p6 with fft_length := 4096, input_data := fun _ => 0 }

/-- A trivial stand-in for the external complex-FFT primitive. -/
noncomputable def cf0 : (ℤ → ℝ) → ℕ → ℤ → ℝ := fun f _ => f

/-- A trivial stand-in for the external complex-magnitude primitive. -/
noncomputable def cm0 : (ℤ → ℝ) → ℕ → ℤ → ℝ := fun f _ => f

/-- A concrete 12-bin processing state whose corrected magnitudes are all
1/10. -/
noncomputable def pN : Processing :=
  { p6 with
    fft_length := 12
    fft_magnitude_corrected := fun _ => 1 / 10 }

/-- Concrete measurements for the noise stage: fundamental magnitude -1 dBFS,
harmonics 2..6 at -100 dBFS, and all harmonic bins at 200 so that no bin of
the 12-bin spectrum is excluded. -/
noncomputable def mN : Measurements :=
  { m0 with
    harmonics_freq := fun _ => 200
    harmonics_mag_dbfs := fun j => if j = 0 then -1 else -100 }

/-!  Shared helper lemmas.  -/

/-- On the Blackman-Harris path away from length 2048 a non-positive sum makes
adi_fft_magnitude_to_db fail with -EINVAL. -/
theorem magnitude_to_db_error_of (env : WindowingEnv) (p : Processing) (s : ℝ)
    (hw : p.window = WindowingType.BLACKMAN_HARRIS_7TERM)
    (hl : p.fft_length ≠ 2048) (hs : s ≤ 0) :
    adi_fft_magnitude_to_db env p s = Except.error (-EINVAL) := by
  simp only [adi_fft_magnitude_to_db, coeffSumSel]
  rw [if_neg fun hc => hl hc.1, if_neg (by rw [hw]; decide), if_pos hs]

/-- The only error adi_fft_magnitude_to_db can produce is -EINVAL. -/
theorem magnitude_to_db_error_eq (env : WindowingEnv) (p : Processing) (s : ℝ)
    (e : ℤ) (h : adi_fft_magnitude_to_db env p s = Except.error e) :
    e = -EINVAL := by
  simp only [adi_fft_magnitude_to_db, coeffSumSel] at h
  by_cases hc1 : p.fft_length = 2048 ∧
      p.window = WindowingType.BLACKMAN_HARRIS_7TERM
  · rw [if_pos hc1] at h; cases h
  · rw [if_neg hc1] at h
    by_cases hc2 : p.window = WindowingType.RECTANGULAR
    · rw [if_pos hc2] at h; cases h
    · rw [if_neg hc2] at h
      by_cases hc3 : s ≤ 0
      · rw [if_pos hc3] at h; cases h; rfl
      · rw [if_neg hc3] at h; cases h

/-- The mean accumulated by the noise loop is the sum of the corrected
magnitudes of the non-excluded visited bins. -/
theorem noiseLoop_mean_eq (fft_proc : Processing) (fft_meas : Measurements)
    (l : List ℕ) (acc : NoiseAcc) :
    (l.foldl (noiseLoopStep fft_proc fft_meas) acc).mean =
      acc.mean + ((l.filter fun c => !noiseExcluded fft_meas c).map
        fun c => fft_proc.fft_magnitude_corrected (c : ℤ)).sum := by
  induction l generalizing acc with
  | nil => simp
  | cons a t ih =>
      simp only [List.foldl_cons, List.filter_cons]
      by_cases h : noiseExcluded fft_meas a = true
      · simp only [h, Bool.not_true, if_neg Bool.false_ne_true]
        rw [ih]
        simp [noiseLoopStep, h]
      · simp only [Bool.not_eq_true] at h
        simp only [h, Bool.not_false, if_pos rfl, List.map_cons, List.sum_cons]
        rw [ih]
        simp [noiseLoopStep, h]
        ring

/-!  Claim theorems.  -/

/-- C2, counterexample.  For fundamental bin 9, harmonic order 2 and FFT
length 16 the unfolded position 18 lies in Nyquist zone 2 (even); the claim
says even zones repeat (translate), which would give bin 18 mod 16 = 2, but
the code computes the reflected position 14. -/
theorem C2_folding_counterexample :
    harmonicPosition 9 2 16 = 14 ∧ 1 + 9 * 2 / 16 = 2 ∧ 9 * 2 % 16 = 2 ∧
      (14 : ℕ) ≠ 2 := by
  decide

/-- C2, amended.  For a folded harmonic (naive position F*h at or above the
first Nyquist zone boundary L) with zone index z = 1 + F*h/L, the position
computed by adi_fft_calculate_thd is the translated (repeated) position
F*h mod L in ODD zones and the reflected position L - F*h mod L in EVEN
zones — the reverse of the claimed parity rule. -/
theorem C2_folding_amended (F h L : ℕ) (hL : 0 < L) (hfold : L ≤ F * h) :
    ((1 + F * h / L) % 2 = 1 → harmonicPosition F h L = F * h % L) ∧
    ((1 + F * h / L) % 2 = 0 → harmonicPosition F h L = L - F * h % L) := by
  have h2 : L * (F * h / L) + F * h % L = F * h := Nat.div_add_mod _ _
  have h3 : F * h % L < L := Nat.mod_lt _ hL
  have h1 : L * (1 + F * h / L) = L + L * (F * h / L) := by ring
  constructor <;> intro hpar <;>
    simp only [harmonicPosition, if_neg (Nat.not_lt.mpr hfold)]
  · rw [if_pos hpar]; omega
  · rw [if_neg (by omega)]; omega

/-- Witness for C2_folding_amended at F = 9, h = 3, L = 16 (zone 2). -/
theorem C2_folding_amended_witness :
    ((0 : ℕ) < 16 ∧ 16 ≤ 9 * 3) ∧
    (((1 + 9 * 3 / 16) % 2 = 1 → harmonicPosition 9 3 16 = 9 * 3 % 16) ∧
     ((1 + 9 * 3 / 16) % 2 = 0 → harmonicPosition 9 3 16 = 16 - 9 * 3 % 16)) :=
  ⟨⟨by decide, by decide⟩, C2_folding_amended 9 3 16 (by decide) (by decide)⟩

/-- C5.  The THD stored by adi_fft_calculate_thd is 20*log10 of the
root-sum-square of the stored leaked powers of harmonics 2..6 divided by the
stored leaked power of the fundamental. -/
theorem C5_thd_formula (fft_proc : Processing) (fft_meas : Measurements) :
    (adi_fft_calculate_thd fft_proc fft_meas).THD =
      20 * log10 (Real.sqrt
        ((adi_fft_calculate_thd fft_proc fft_meas).harmonics_power 1 ^ 2 +
         (adi_fft_calculate_thd fft_proc fft_meas).harmonics_power 2 ^ 2 +
         (adi_fft_calculate_thd fft_proc fft_meas).harmonics_power 3 ^ 2 +
         (adi_fft_calculate_thd fft_proc fft_meas).harmonics_power 4 ^ 2 +
         (adi_fft_calculate_thd fft_proc fft_meas).harmonics_power 5 ^ 2) /
        (adi_fft_calculate_thd fft_proc fft_meas).harmonics_power 0) := by
  rfl

/-- C6.  adi_fft_waveform_stat subtracts the truncated-to-integer mean of the
original codes from every sample of the capture block, and DC_LSB is that
truncated mean plus the zero-scale code. -/
theorem C6_dc_removal (fft_proc : Processing) (fft_meas : Measurements)
    (i : ℕ) (hi : i < fft_proc.fft_length * 2) :
    (adi_fft_waveform_stat fft_proc fft_meas).1.input_data i =
      fft_proc.input_data i -
        Int.tdiv (∑ cnt ∈ Finset.range (fft_proc.fft_length * 2),
            fft_proc.input_data cnt)
          (fft_proc.fft_length * 2) ∧
    (adi_fft_waveform_stat fft_proc fft_meas).2.DC_LSB =
      Int.tdiv (∑ cnt ∈ Finset.range (fft_proc.fft_length * 2),
          fft_proc.input_data cnt)
        (fft_proc.fft_length * 2) +
        fft_proc.input_data_zero_scale := by
  constructor
  · simp only [adi_fft_waveform_stat]
    split
    · rfl
    · rename_i hcond
      exact absurd ⟨Int.natCast_nonneg i, by exact_mod_cast hi⟩ hcond
  · rfl

/-- Witness for C6_dc_removal on the concrete 4-sample block of p6
(sum 14, truncated mean 3). -/
theorem C6_dc_removal_witness :
    0 < p6.fft_length * 2 ∧
    ((adi_fft_waveform_stat p6 m0).1.input_data 0 =
        p6.input_data 0 -
          Int.tdiv (∑ cnt ∈ Finset.range (p6.fft_length * 2),
              p6.input_data cnt)
            (p6.fft_length * 2) ∧
      (adi_fft_waveform_stat p6 m0).2.DC_LSB =
        Int.tdiv (∑ cnt ∈ Finset.range (p6.fft_length * 2),
            p6.input_data cnt)
          (p6.fft_length * 2) +
          p6.input_data_zero_scale) :=
  ⟨by decide, C6_dc_removal p6 m0 0 (by decide)⟩

/-- C9.  adi_fft_update_params with non-null arguments updates exactly the
FFT length (samples_count / 2), sample rate and reference voltage and leaves
the conversion hooks, full-scale and zero-scale codes, window selection, all
buffers, bin width and the fft_done flag unchanged; with a null argument it
returns -EINVAL. -/
theorem C9_update_params_frame (cfft_init : ℕ → ℤ) (param : InitParams)
    (fp : Processing) :
    (∃ r : Processing × ℤ,
      adi_fft_update_params cfft_init (some param) (some fp) = Except.ok r ∧
      r.1.fft_length = param.samples_count / 2 ∧
      r.1.sample_rate = param.sample_rate ∧
      r.1.vref = param.vref ∧
      r.1.input_data_full_scale = fp.input_data_full_scale ∧
      r.1.input_data_zero_scale = fp.input_data_zero_scale ∧
      r.1.cnv_data_to_volt_without_vref = fp.cnv_data_to_volt_without_vref ∧
      r.1.cnv_data_to_volt_wrt_vref = fp.cnv_data_to_volt_wrt_vref ∧
      r.1.cnv_code_to_straight_binary = fp.cnv_code_to_straight_binary ∧
      r.1.bin_width = fp.bin_width ∧
      r.1.input_data = fp.input_data ∧
      r.1.fft_magnitude = fp.fft_magnitude ∧
      r.1.fft_magnitude_corrected = fp.fft_magnitude_corrected ∧
      r.1.fft_dB = fp.fft_dB ∧
      r.1.fft_input = fp.fft_input ∧
      r.1.noise_bins = fp.noise_bins ∧
      r.1.window = fp.window ∧
      r.1.fft_done = fp.fft_done) ∧
    adi_fft_update_params cfft_init none (some fp) =
      Except.error (-EINVAL) ∧
    adi_fft_update_params cfft_init (some param) none =
      Except.error (-EINVAL) ∧
    adi_fft_update_params cfft_init none none = Except.error (-EINVAL) := by
  refine ⟨⟨_, rfl, ?_⟩, rfl, rfl, rfl⟩
  exact ⟨rfl, rfl, rfl, rfl, rfl, rfl, rfl, rfl, rfl, rfl, rfl, rfl, rfl,
    rfl, rfl, rfl, rfl⟩

/-- C10.  adi_fft_perform clears fft_done on entry, and after the call
fft_done holds exactly when the call returned 0; on the error path of any
inner stage it stays false. -/
theorem C10_fft_done_iff_success (env : WindowingEnv)
    (cfftF cmagF : (ℤ → ℝ) → ℕ → ℤ → ℝ) (fft_proc : Processing)
    (fft_meas : Measurements) :
    (performPrep fft_proc).fft_done = false ∧
    ((adi_fft_perform env cfftF cmagF fft_proc fft_meas).1 = 0 ↔
      (adi_fft_perform env cfftF cmagF fft_proc fft_meas).2.1.fft_done =
        true) := by
  refine ⟨rfl, ?_⟩
  simp only [adi_fft_perform]
  split
  · rename_i e heq
    have he := magnitude_to_db_error_eq _ _ _ _ heq
    subst he
    refine ⟨fun h0 => ?_, fun hd => ?_⟩
    · have h0x : -EINVAL = (0 : ℤ) := h0
      exact absurd h0x (by decide)
    · have hdx : false = true := hd
      exact absurd hdx (by decide)
  · exact ⟨fun _ => rfl, fun _ => rfl⟩

/-- C8.  On the synthesized Blackman-Harris path (fft_length above 2048) a
non-positive accumulated coefficient sum makes adi_fft_magnitude_to_db return
-EINVAL without writing any corrected magnitude, and adi_fft_perform
propagates that error when the sum accumulated by the windowing stage is
non-positive. -/
theorem C8_einval_nonpositive_sum (env : WindowingEnv)
    (cfftF cmagF : (ℤ → ℝ) → ℕ → ℤ → ℝ) (fft_proc : Processing)
    (fft_meas : Measurements) (s : ℝ)
    (hw : fft_proc.window = WindowingType.BLACKMAN_HARRIS_7TERM)
    (hl : 2048 < fft_proc.fft_length) (hs : s ≤ 0)
    (hsum : (adi_fft_windowing env (performLoadInput
      (adi_fft_waveform_stat (performPrep fft_proc) fft_meas).1) 0).2 ≤ 0) :
    adi_fft_magnitude_to_db env fft_proc s = Except.error (-EINVAL) ∧
    (adi_fft_perform env cfftF cmagF fft_proc fft_meas).1 = -EINVAL := by
  have hl2 : fft_proc.fft_length ≠ 2048 := by omega
  refine ⟨magnitude_to_db_error_of env fft_proc s hw hl2 hs, ?_⟩
  simp only [adi_fft_perform]
  split
  · rename_i e heq
    have he := magnitude_to_db_error_eq _ _ _ _ heq
    subst he
    rfl
  · rename_i p5 heq
    rw [magnitude_to_db_error_of] at heq
    · cases heq
    · exact hw
    · exact hl2
    · exact hsum

/-- Witness for C8_einval_nonpositive_sum at the concrete 4096-bin state p8
with the all-zero coefficient environment (accumulated sum 0). -/
theorem C8_einval_nonpositive_sum_witness :
    (p8.window = WindowingType.BLACKMAN_HARRIS_7TERM ∧
      2048 < p8.fft_length ∧ (0 : ℝ) ≤ 0 ∧
      (adi_fft_windowing env0 (performLoadInput
        (adi_fft_waveform_stat (performPrep p8) m0).1) 0).2 ≤ 0) ∧
    (adi_fft_magnitude_to_db env0 p8 0 = Except.error (-EINVAL) ∧
      (adi_fft_perform env0 cf0 cm0 p8 m0).1 = -EINVAL) :=
  ⟨⟨rfl, by decide, le_refl 0,
      by simp [adi_fft_windowing, windowTerm, performLoadInput,
        adi_fft_waveform_stat, performPrep, p8, p6, env0,
        ADI_FFT_NUM_OF_TERMS]⟩,
    C8_einval_nonpositive_sum env0 cf0 cm0 p8 m0 0 rfl (by decide)
      (le_refl 0)
      (by simp [adi_fft_windowing, windowTerm, performLoadInput,
        adi_fft_waveform_stat, performPrep, p8, p6, env0,
        ADI_FFT_NUM_OF_TERMS])⟩

/-- C3, counterexample.  At FFT length 1024 the Blackman-Harris windowing
takes the precomputed-table path (1024 is at most 2048), yet the divisor
selected by the normalization stage is the accumulated sum argument, not the
table-sum constant: passing accumulated sums 5 and 7 yields divisors 5 and 7
respectively, so the divisor is not the fixed precomputed constant. -/
theorem C3_coeff_sum_counterexample :
    (1024 : ℕ) ≤ 2048 ∧
    windowTerm env0 WindowingType.BLACKMAN_HARRIS_7TERM 1024 3 =
      env0.bh_4096 3 ∧
    coeffSumSel env0 1024 WindowingType.BLACKMAN_HARRIS_7TERM 5 =
      Except.ok 5 ∧
    coeffSumSel env0 1024 WindowingType.BLACKMAN_HARRIS_7TERM 7 =
      Except.ok 7 ∧
    (5 : ℝ) ≠ 7 := by
  refine ⟨by decide, by simp [windowTerm], ?_, ?_, by norm_num⟩
  · norm_num [coeffSumSel]
    decide
  · norm_num [coeffSumSel]
    decide

/-- C3, amended.  The precomputed table-sum constant is the divisor exactly
when fft_length equals 2048 and the window is Blackman-Harris; the rectangular
window always uses the sample count fft_length*2; Blackman-Harris at any other
length — the table path below 2048 included — uses the accumulated sum, with
-EINVAL when that sum is non-positive. -/
theorem C3_coeff_sum_amended (env : WindowingEnv) (L : ℕ)
    (w : WindowingType) (s : ℝ) :
    (L = 2048 ∧ w = WindowingType.BLACKMAN_HARRIS_7TERM →
      coeffSumSel env L w s = Except.ok env.bh_4096_sum) ∧
    (w = WindowingType.RECTANGULAR →
      coeffSumSel env L w s = Except.ok ((L : ℝ) * 2)) ∧
    (w = WindowingType.BLACKMAN_HARRIS_7TERM → L ≠ 2048 → 0 < s →
      coeffSumSel env L w s = Except.ok s) ∧
    (w = WindowingType.BLACKMAN_HARRIS_7TERM → L ≠ 2048 → s ≤ 0 →
      coeffSumSel env L w s = Except.error (-EINVAL)) := by
  refine ⟨fun hc => ?_, fun hr => ?_, fun hw hl hs => ?_, fun hw hl hs => ?_⟩
  · simp only [coeffSumSel, if_pos hc]
  · simp only [coeffSumSel]
    rw [if_neg (by rw [hr]; rintro ⟨-, hh⟩; cases hh), if_pos hr]
  · simp only [coeffSumSel]
    rw [if_neg fun hc => hl hc.1, if_neg (by rw [hw]; decide),
      if_neg (not_le.mpr hs)]
  · simp only [coeffSumSel]
    rw [if_neg fun hc => hl hc.1, if_neg (by rw [hw]; decide), if_pos hs]

/-- Witness for C3_coeff_sum_amended: Blackman-Harris at length 1024 with
accumulated sum 1 selects the accumulated sum. -/
theorem C3_coeff_sum_amended_witness :
    (WindowingType.BLACKMAN_HARRIS_7TERM =
        WindowingType.BLACKMAN_HARRIS_7TERM ∧
      (1024 : ℕ) ≠ 2048 ∧ (0 : ℝ) < 1) ∧
    coeffSumSel env0 1024 WindowingType.BLACKMAN_HARRIS_7TERM 1 =
      Except.ok 1 :=
  ⟨⟨rfl, by decide, one_pos⟩,
    (C3_coeff_sum_amended env0 1024 WindowingType.BLACKMAN_HARRIS_7TERM
      1).2.2.1 rfl (by decide) one_pos⟩

/-- C4, amended.  The average bin noise reported by adi_fft_calculate_noise
is 20*log10 of the sum of the corrected magnitudes of the non-excluded bins
of [ADI_FFT_DC_BINS, fft_length) divided by the FULL fft_length — i.e. the
mean of the noise-bin array with excluded bins counted as zeros, not the
arithmetic mean over only the remaining bins. -/
theorem C4_average_bin_noise_amended (fft_proc : Processing)
    (fft_meas : Measurements) :
    (adi_fft_calculate_noise fft_proc fft_meas).2.average_bin_noise =
      20 * log10 ((((List.range' ADI_FFT_DC_BINS
            (fft_proc.fft_length - ADI_FFT_DC_BINS)).filter
          fun c => !noiseExcluded fft_meas c).map
            fun c => fft_proc.fft_magnitude_corrected (c : ℤ)).sum /
        (fft_proc.fft_length : ℝ)) := by
  simp only [adi_fft_calculate_noise]
  rw [noiseLoop_mean_eq]
  norm_num

/-- C4, counterexample.  On the 12-bin state pN/mN exactly the two bins 10
and 11 remain after exclusion, each with corrected magnitude 1/10; their
arithmetic mean is 1/10, but the code reports 20*log10((1/10+1/10)/12) =
20*log10(1/60), which differs from 20*log10(1/10). -/
theorem C4_average_bin_noise_counterexample :
    ((List.range' ADI_FFT_DC_BINS (pN.fft_length - ADI_FFT_DC_BINS)).filter
        fun c => !noiseExcluded mN c) = [10, 11] ∧
    (adi_fft_calculate_noise pN mN).2.average_bin_noise =
      20 * log10 (1 / 60) ∧
    (pN.fft_magnitude_corrected 10 + pN.fft_magnitude_corrected 11) / 2 =
      1 / 10 ∧
    20 * log10 ((1 : ℝ) / 60) ≠ 20 * log10 ((1 : ℝ) / 10) := by
  have hfil : ((List.range' ADI_FFT_DC_BINS
      (pN.fft_length - ADI_FFT_DC_BINS)).filter
        fun c => !noiseExcluded mN c) = [10, 11] := by decide
  refine ⟨hfil, ?_, by norm_num [pN, p6], ?_⟩
  · simp only [adi_fft_calculate_noise]
    rw [noiseLoop_mean_eq, hfil]
    norm_num [pN, p6]
  · have hlog : log10 ((1 : ℝ) / 60) < log10 ((1 : ℝ) / 10) :=
      Real.logb_lt_logb (by norm_num) (by norm_num) (by norm_num)
    intro hcontra
    exact absurd (mul_left_cancel₀ (by norm_num : (20 : ℝ) ≠ 0) hcontra)
      (ne_of_lt hlog)

/-- C1.  On the state pN/mN the largest harmonic magnitude among harmonics
2..6 is -100 dBFS and the converted peak spurious value is
20*log10(1/(1/10)) = 20; the larger of the two is 20, yet the code stores
SFDR_dbfs = -100 and SFDR_dbc = -100 - (-1) = -99: the biggest-spur step
takes the SMALLER of the two values (and compares the harmonic dBFS value
against the sign-flipped peak-spurious value), contradicting the claim and
the code's own comment that it looks for the biggest spur. -/
theorem C1_sfdr_smaller_spur_bug :
    (adi_fft_calculate_noise pN mN).2.pk_spurious_noise = 20 ∧
    (adi_fft_calculate_noise pN mN).2.SFDR_dbfs = -100 ∧
    (adi_fft_calculate_noise pN mN).2.SFDR_dbc = -99 ∧
    max (-100 : ℝ) 20 = 20 := by
  have hr : List.range' ADI_FFT_DC_BINS (pN.fft_length - ADI_FFT_DC_BINS) =
      [10, 11] := by decide
  have hx10 : noiseExcluded mN 10 = false := by decide
  have hx11 : noiseExcluded mN 11 = false := by decide
  have hten : log10 (10 : ℝ) = 1 := by
    norm_num [log10, Real.logb_self_eq_one]
  simp only [adi_fft_calculate_noise, hr, List.foldl_cons, List.foldl_nil,
    noiseLoopStep, hx10, hx11, Bool.false_eq_true, if_false]
  norm_num [pN, p6, mN, m0, hten]

end AdiFft
